import Mathlib

/-!
Verification of the joybus controller protocol core (src/src/game/joybus.c).

The development shallowly embeds the C source: packed wire buffers become
`List Nat` of byte values, the global per-channel registry becomes a
`Fin 4 → OSPortInfo` map, and each C function becomes a pure Lean function
over explicit state.  Machine integers are modelled as `Nat`/`Int` with
explicit wraparound where the C width matters.

Constants and macros that live in the project headers (joybus.h etc.),
which are not part of the provided source, are modelled from the spec and
carry a doc comment starting with `Modelled from the spec:`.
-/

/-! ## Wire-format constants -/

/-- Modelled from the spec: skip-channel sentinel byte, value 0x00 (spec §6). -/
def PIF_CMD_SKIP_CHNL : Nat := 0x00

/-- Modelled from the spec: reset-channel structural sentinel; the spec names it
but fixes no value (it lives in the PIF header, not in the source). -/
def PIF_CMD_RESET_CHNL : Nat := 0xFD

/-- Modelled from the spec: no-op padding sentinel byte, value 0xFF (spec §6). -/
def PIF_CMD_NOP : Nat := 0xFF

/-- Modelled from the spec: end-of-buffer sentinel byte, value 0xFE (spec §6). -/
def PIF_CMD_END : Nat := 0xFE

/-- Modelled from the spec: command id of the standard-protocol read block
(header constant; the value itself is never decisive below). -/
def CONT_CMD_READ_BUTTON : Nat := 0x01

/-- Modelled from the spec: command id of the extended-protocol short poll. -/
def CONT_CMD_GCN_SHORT_POLL : Nat := 0x40

/-- Modelled from the spec: command id of the extended-protocol long poll. -/
def CONT_CMD_GCN_LONG_POLL : Nat := 0x43

/-- Modelled from the spec: command id of the accessory write command. -/
def CONT_CMD_WRITE_MEMPAK : Nat := 0x03

/-- Modelled from the spec: success channel-error flag bits inside the
receive-size byte (spec §7: nibble code extracted from the size byte). -/
def CHNL_ERR_SUCCESS : Nat := 0x00

/-- Modelled from the spec: overrun/collision channel-error flag bits. -/
def CHNL_ERR_OVERRUN : Nat := 0x40

/-- Modelled from the spec: no-response channel-error flag bits. -/
def CHNL_ERR_NORESP : Nat := 0x80

/-- Modelled from the spec: the `CHNL_ERR` header macro extracting the 4-bit
error code from the high bits of the receive-size byte of a command block. -/
def CHNL_ERR (rx : Nat) : Nat := (rx &&& 0xC0) >>> 4

/-- Modelled from the spec: extended-protocol analog submode selectors
(five width encodings; spec §4.3). The numeric values come from the header. -/
def GCN_MODE_0_211 : Nat := 0

/-- Modelled from the spec: submode 1 — 4-bit secondary stick, 8-bit triggers. -/
def GCN_MODE_1_121 : Nat := 1

/-- Modelled from the spec: submode 2 — 4-bit secondary stick, 4-bit triggers. -/
def GCN_MODE_2_112 : Nat := 2

/-- Modelled from the spec: submode 3 — 8-bit secondary stick and triggers. -/
def GCN_MODE_3_220 : Nat := 3

/-- Modelled from the spec: submode 4 — 8-bit secondary stick, triggers zero. -/
def GCN_MODE_4_202 : Nat := 4

/-- Modelled from the spec: device-class bit marking an extended (GameCube)
console device in the 16-bit device type. -/
def CONT_CONSOLE_GCN : Nat := 0x0800

/-- Modelled from the spec: the all-ones null device type (spec §4.2). -/
def CONT_TYPE_NULL : Nat := 0xFFFF

/-- Modelled from the spec: device type of a standard controller. -/
def CONT_TYPE_NORMAL : Nat := 0x0005

/-- Modelled from the spec: trigger deadzone constant for the shoulder-to-Z
promotion (spec §4.3 requires it as a named design parameter; its numeric
value is fixed in the header and is never decisive below). -/
def GCN_TRIGGER_THRESHOLD : Nat := 170

/-- Modelled from the spec: secondary-stick deadzone constant for C-button
synthesis (named design parameter; numeric value from the header). -/
def GCN_C_STICK_THRESHOLD : Nat := 38

/-- Modelled from the spec: motor command value Stop. -/
def MOTOR_STOP : Nat := 0

/-- Modelled from the spec: motor command value Start. -/
def MOTOR_START : Nat := 1

/-- Modelled from the spec: motor command value Brake (extended devices only). -/
def MOTOR_STOP_HARD : Nat := 2

/-- Modelled from the spec: mask restricting a motor command to the values a
standard-protocol accessory understands (Stop/Start only, spec §4.4). -/
def MOTOR_MASK_N64 : Nat := 0x01

/-! ## Analog model -/

/-- Unsigned byte pair: one 8-bit value per axis (or per trigger side). -/
structure Analog_u8 where
  x : Nat
  y : Nat
deriving DecidableEq

/-- Left trigger alias: the C union exposes the first component as `.l`. -/
def Analog_u8.l (a : Analog_u8) : Nat := a.x

/-- Right trigger alias: the C union exposes the second component as `.r`. -/
def Analog_u8.r (a : Analog_u8) : Nat := a.y

/-- Signed byte pair: one 8-bit signed value per axis. -/
structure Analog_s8 where
  x : Int
  y : Int
deriving DecidableEq

/-- Wrap an integer to the signed 8-bit range, as a C `(s8)` cast does. -/
def s8wrap (n : Int) : Int := (n + 128).emod 256 - 128

/-- Wrap an integer to the unsigned 8-bit range, as a C `(u8)` cast does. -/
def u8wrap (n : Int) : Nat := (n.emod 256).toNat

/-- Modelled from the spec: the `ANALOG_S8_CENTER` header macro — signed
subtraction of the stored origin, independent per axis, wrapping at the
stored 8-bit width (spec §4.3). -/
def ANALOG_S8_CENTER (raw origin : Analog_u8) : Analog_s8 :=
  ⟨s8wrap ((raw.x : Int) - origin.x), s8wrap ((raw.y : Int) - origin.y)⟩

/-- Modelled from the spec: the `ANALOG_U8_CENTER` header macro — unsigned
per-axis subtraction of the stored origin with 8-bit wraparound. -/
def ANALOG_U8_CENTER (raw origin : Analog_u8) : Analog_u8 :=
  ⟨u8wrap ((raw.x : Int) - origin.x), u8wrap ((raw.y : Int) - origin.y)⟩

/-- Modelled from the spec: scalar 4-bit to 8-bit widening — replicate the
nibble into both halves rather than left-shifting with zero fill (spec §4.3). -/
def u4_to_u8 (v : Nat) : Nat := (v <<< 4) ||| v

/-- Modelled from the spec: the `ANALOG_U4_TO_U8` header macro, applying the
nibble replication to both components of an analog pair. -/
def ANALOG_U4_TO_U8 (a : Analog_u8) : Analog_u8 := ⟨u4_to_u8 a.x, u4_to_u8 a.y⟩

/-- High nibble of a byte. -/
def hiNibble (b : Nat) : Nat := (b % 256) >>> 4

/-- Low nibble of a byte. -/
def loNibble (b : Nat) : Nat := b &&& 0xF

/-! ## Button model -/

/-- Unified (N64) button record: the bitfield view of the 16-bit button word. -/
structure N64Buttons where
  A : Bool
  B : Bool
  Z : Bool
  START : Bool
  D_UP : Bool
  D_DOWN : Bool
  D_LEFT : Bool
  D_RIGHT : Bool
  RESET : Bool
  unused : Bool
  L : Bool
  R : Bool
  C_UP : Bool
  C_DOWN : Bool
  C_LEFT : Bool
  C_RIGHT : Bool
deriving DecidableEq

/-- Modelled from the spec: unpack the 16-bit unified button word into its
bitfield view.  The spec fixes the set of flags (§3) but the bit positions
come from the header; they are never decisive below. -/
def N64Buttons.ofRaw (w : Nat) : N64Buttons where
  A := w.testBit 15
  B := w.testBit 14
  Z := w.testBit 13
  START := w.testBit 12
  D_UP := w.testBit 11
  D_DOWN := w.testBit 10
  D_LEFT := w.testBit 9
  D_RIGHT := w.testBit 8
  RESET := w.testBit 7
  unused := w.testBit 6
  L := w.testBit 5
  R := w.testBit 4
  C_UP := w.testBit 3
  C_DOWN := w.testBit 2
  C_LEFT := w.testBit 1
  C_RIGHT := w.testBit 0

/-- Extended (GameCube) device button record. -/
structure GCNButtons where
  A : Bool
  B : Bool
  X : Bool
  Y : Bool
  START : Bool
  L : Bool
  R : Bool
  Z : Bool
  D_UP : Bool
  D_DOWN : Bool
  D_LEFT : Bool
  D_RIGHT : Bool
deriving DecidableEq

/-- Modelled from the spec: unpack the extended device's 16-bit button word.
Bit positions come from the header and are never decisive below. -/
def GCNButtons.ofRaw (w : Nat) : GCNButtons where
  START := w.testBit 12
  Y := w.testBit 11
  X := w.testBit 10
  B := w.testBit 9
  A := w.testBit 8
  L := w.testBit 6
  R := w.testBit 5
  Z := w.testBit 4
  D_UP := w.testBit 3
  D_DOWN := w.testBit 2
  D_RIGHT := w.testBit 1
  D_LEFT := w.testBit 0

/-! ## Per-channel state -/

/-- Calibration origin state of one channel (`OSContOrigins`). -/
structure OSContOrigins where
  initialized : Bool
  stick : Analog_u8
  c_stick : Analog_u8
  trig : Analog_u8
deriving DecidableEq

/-- The unified logical input record of one channel (`OSContPadEx`). -/
structure OSContPadEx where
  button : N64Buttons
  stick : Analog_s8
  c_stick : Analog_s8
  trig : Analog_u8
  errno : Nat
  origins : OSContOrigins
deriving DecidableEq

/-- One Channel Registry slot (`OSPortInfo`): plugged flag, assigned player,
16-bit device type and the cached extended-device rumble state. -/
structure OSPortInfo where
  plugged : Bool
  playerNum : Nat
  type : Nat
  gcRumble : Nat
deriving DecidableEq

/-! ## Input Decoder: extended-device normalization (`__osContReadGCNInputData`) -/

/-- Embedding of `__osContReadGCNInputData` (joybus.c lines 67-106): captures
the calibration origin on first response, centers each analog axis against
the stored origin, and maps the extended button bits onto the unified record
(with the deliberate L/Z cross-map and C-button synthesis). -/
def __osContReadGCNInputData (pad : OSContPadEx) (gcn : GCNButtons)
    (stick c_stick trig : Analog_u8) : OSContPadEx :=
  let origins : OSContOrigins :=
    if pad.origins.initialized then pad.origins else ⟨true, stick, c_stick, trig⟩
  let stick' := ANALOG_S8_CENTER stick origins.stick
  let c_stick' := ANALOG_S8_CENTER c_stick origins.c_stick
  let trig' := ANALOG_U8_CENTER trig origins.trig
  let n64 : N64Buttons :=
    { A := gcn.A
      B := gcn.B
      Z := gcn.L || decide (trig.l > GCN_TRIGGER_THRESHOLD)
      START := gcn.START
      D_UP := gcn.D_UP
      D_DOWN := gcn.D_DOWN
      D_LEFT := gcn.D_LEFT
      D_RIGHT := gcn.D_RIGHT
      RESET := gcn.X
      unused := gcn.Y
      L := gcn.Z
      R := gcn.R
      C_UP := decide (c_stick'.y > (GCN_C_STICK_THRESHOLD : Int))
      C_DOWN := decide (c_stick'.y < -(GCN_C_STICK_THRESHOLD : Int))
      C_LEFT := decide (c_stick'.x < -(GCN_C_STICK_THRESHOLD : Int))
      C_RIGHT := decide (c_stick'.x > (GCN_C_STICK_THRESHOLD : Int)) }
  { pad with
      origins := origins
      stick := stick'
      c_stick := c_stick'
      trig := trig'
      button := n64 }

/-! ## Claims C4-C7 -/

/-- C4: on a channel whose calibration origin is uninitialized, the decoder
captures the raw reading as the origin, marks it initialized, and the centered
output of that same first reading is 0 on every axis of the primary stick,
secondary stick and trigger pair. -/
theorem claim_C4 (pad : OSContPadEx) (gcn : GCNButtons)
    (stick c_stick trig : Analog_u8)
    (h : pad.origins.initialized = false) :
    (__osContReadGCNInputData pad gcn stick c_stick trig).origins
        = ⟨true, stick, c_stick, trig⟩
    ∧ (__osContReadGCNInputData pad gcn stick c_stick trig).stick = ⟨0, 0⟩
    ∧ (__osContReadGCNInputData pad gcn stick c_stick trig).c_stick = ⟨0, 0⟩
    ∧ (__osContReadGCNInputData pad gcn stick c_stick trig).trig = ⟨0, 0⟩ := by
  refine ⟨?_, ?_, ?_, ?_⟩ <;>
    simp [__osContReadGCNInputData, h, ANALOG_S8_CENTER, ANALOG_U8_CENTER,
      s8wrap, u8wrap] <;> decide

/-- A neutral extended-device button state used by concrete witnesses. -/
def gcnNone : GCNButtons :=
  ⟨false, false, false, false, false, false, false, false, false, false, false, false⟩

/-- A neutral unified button state used by concrete witnesses. -/
def n64None : N64Buttons :=
  ⟨false, false, false, false, false, false, false, false,
   false, false, false, false, false, false, false, false⟩

/-- A pad with uninitialized calibration origin used by concrete witnesses. -/
def padZero : OSContPadEx :=
  ⟨n64None, ⟨0, 0⟩, ⟨0, 0⟩, ⟨0, 0⟩, 0, ⟨false, ⟨0, 0⟩, ⟨0, 0⟩, ⟨0, 0⟩⟩⟩

theorem claim_C4_witness :
    (__osContReadGCNInputData padZero gcnNone ⟨100, 120⟩ ⟨130, 140⟩ ⟨50, 60⟩).origins
        = ⟨true, ⟨100, 120⟩, ⟨130, 140⟩, ⟨50, 60⟩⟩
    ∧ (__osContReadGCNInputData padZero gcnNone ⟨100, 120⟩ ⟨130, 140⟩ ⟨50, 60⟩).stick = ⟨0, 0⟩
    ∧ (__osContReadGCNInputData padZero gcnNone ⟨100, 120⟩ ⟨130, 140⟩ ⟨50, 60⟩).c_stick = ⟨0, 0⟩
    ∧ (__osContReadGCNInputData padZero gcnNone ⟨100, 120⟩ ⟨130, 140⟩ ⟨50, 60⟩).trig = ⟨0, 0⟩ :=
  claim_C4 padZero gcnNone ⟨100, 120⟩ ⟨130, 140⟩ ⟨50, 60⟩ rfl

/-- C5: the 4-bit to 8-bit analog widening replicates the nibble into both
halves — for every 4-bit value the result is `(v <<< 4) ||| v`, equivalently
`17 * v`, so the numeric span 0x0-0xF maps onto 0x00-0xFF; the pairwise
macro applies the same widening per axis. -/
theorem claim_C5 : ∀ v : Nat, v < 16 →
    u4_to_u8 v = ((v <<< 4) ||| v)
    ∧ u4_to_u8 v = 17 * v
    ∧ ∀ w : Nat, w < 16 → ANALOG_U4_TO_U8 ⟨v, w⟩ = ⟨17 * v, 17 * w⟩ := by
  decide

theorem claim_C5_witness :
    u4_to_u8 0x0 = 0x00 ∧ u4_to_u8 0xF = 0xFF ∧ u4_to_u8 0x8 = 0x88 :=
  ⟨((claim_C5 0x0 (by decide)).2.1).trans (by decide),
   ((claim_C5 0xF (by decide)).2.1).trans (by decide),
   ((claim_C5 0x8 (by decide)).2.1).trans (by decide)⟩

/-- C6: in the extended-to-unified button remap, unified Z is set iff the
extended left-shoulder boolean is set or the raw left analog trigger exceeds
the trigger threshold, and unified L is set iff the extended Z boolean is set
(the deliberate cross-map); in particular left-shoulder clear with trigger
above threshold sets Z, and extended Z sets unified L. -/
theorem claim_C6 (pad : OSContPadEx) (gcn : GCNButtons)
    (stick c_stick trig : Analog_u8) :
    ((__osContReadGCNInputData pad gcn stick c_stick trig).button.Z
        = (gcn.L || decide (trig.l > GCN_TRIGGER_THRESHOLD)))
    ∧ ((__osContReadGCNInputData pad gcn stick c_stick trig).button.L = gcn.Z)
    ∧ (gcn.L = false → GCN_TRIGGER_THRESHOLD < trig.l →
        (__osContReadGCNInputData pad gcn stick c_stick trig).button.Z = true)
    ∧ (gcn.Z = true →
        (__osContReadGCNInputData pad gcn stick c_stick trig).button.L = true) := by
  refine ⟨rfl, rfl, ?_, ?_⟩
  · intro hL htrig
    simp [__osContReadGCNInputData, hL, htrig]
  · intro hZ
    simp [__osContReadGCNInputData, hZ]

theorem claim_C6_witness :
    (__osContReadGCNInputData padZero gcnNone ⟨0, 0⟩ ⟨0, 0⟩ ⟨200, 0⟩).button.Z = true
    ∧ (__osContReadGCNInputData padZero
        ⟨false, false, false, false, false, false, false, true,
         false, false, false, false⟩ ⟨0, 0⟩ ⟨0, 0⟩ ⟨0, 0⟩).button.L = true :=
  ⟨(claim_C6 padZero gcnNone ⟨0, 0⟩ ⟨0, 0⟩ ⟨200, 0⟩).2.2.1 rfl (by decide),
   (claim_C6 padZero
      ⟨false, false, false, false, false, false, false, true,
       false, false, false, false⟩ ⟨0, 0⟩ ⟨0, 0⟩ ⟨0, 0⟩).2.2.2 rfl⟩

/-- C7: the four C-direction buttons are synthesized from the centered
secondary-stick value by strict comparison with the C-stick threshold:
C_UP iff centered y strictly exceeds it (equality does not set C_UP, one
unit above does), C_DOWN iff y is strictly below its negation, and
symmetrically C_LEFT / C_RIGHT on the x axis. -/
theorem claim_C7 (pad : OSContPadEx) (gcn : GCNButtons)
    (stick c_stick trig : Analog_u8) :
    ((__osContReadGCNInputData pad gcn stick c_stick trig).button.C_UP
        = decide ((__osContReadGCNInputData pad gcn stick c_stick trig).c_stick.y
            > (GCN_C_STICK_THRESHOLD : Int)))
    ∧ ((__osContReadGCNInputData pad gcn stick c_stick trig).button.C_DOWN
        = decide ((__osContReadGCNInputData pad gcn stick c_stick trig).c_stick.y
            < -(GCN_C_STICK_THRESHOLD : Int)))
    ∧ ((__osContReadGCNInputData pad gcn stick c_stick trig).button.C_LEFT
        = decide ((__osContReadGCNInputData pad gcn stick c_stick trig).c_stick.x
            < -(GCN_C_STICK_THRESHOLD : Int)))
    ∧ ((__osContReadGCNInputData pad gcn stick c_stick trig).button.C_RIGHT
        = decide ((__osContReadGCNInputData pad gcn stick c_stick trig).c_stick.x
            > (GCN_C_STICK_THRESHOLD : Int)))
    ∧ ((__osContReadGCNInputData pad gcn stick c_stick trig).c_stick.y
          = (GCN_C_STICK_THRESHOLD : Int) →
        (__osContReadGCNInputData pad gcn stick c_stick trig).button.C_UP = false)
    ∧ ((__osContReadGCNInputData pad gcn stick c_stick trig).c_stick.y
          = (GCN_C_STICK_THRESHOLD : Int) + 1 →
        (__osContReadGCNInputData pad gcn stick c_stick trig).button.C_UP = true) := by
  refine ⟨rfl, rfl, rfl, rfl, ?_, ?_⟩
  · intro hy
    have : (__osContReadGCNInputData pad gcn stick c_stick trig).button.C_UP
        = decide ((__osContReadGCNInputData pad gcn stick c_stick trig).c_stick.y
            > (GCN_C_STICK_THRESHOLD : Int)) := rfl
    rw [this, hy]
    simp
  · intro hy
    have : (__osContReadGCNInputData pad gcn stick c_stick trig).button.C_UP
        = decide ((__osContReadGCNInputData pad gcn stick c_stick trig).c_stick.y
            > (GCN_C_STICK_THRESHOLD : Int)) := rfl
    rw [this, hy]
    simp

/-- A pad whose calibration origin is already initialized at a nonzero
baseline, used to exercise the centering in concrete witnesses. -/
def padCal : OSContPadEx :=
  ⟨n64None, ⟨0, 0⟩, ⟨0, 0⟩, ⟨0, 0⟩, 0, ⟨true, ⟨128, 128⟩, ⟨128, 100⟩, ⟨0, 0⟩⟩⟩

theorem claim_C7_witness :
    (__osContReadGCNInputData padCal gcnNone ⟨128, 128⟩ ⟨128, 138⟩ ⟨0, 0⟩).c_stick.y
        = (GCN_C_STICK_THRESHOLD : Int)
    ∧ (__osContReadGCNInputData padCal gcnNone ⟨128, 128⟩ ⟨128, 138⟩ ⟨0, 0⟩).button.C_UP
        = false
    ∧ (__osContReadGCNInputData padCal gcnNone ⟨128, 128⟩ ⟨128, 139⟩ ⟨0, 0⟩).c_stick.y
        = (GCN_C_STICK_THRESHOLD : Int) + 1
    ∧ (__osContReadGCNInputData padCal gcnNone ⟨128, 128⟩ ⟨128, 139⟩ ⟨0, 0⟩).button.C_UP
        = true :=
  ⟨by decide,
   (claim_C7 padCal gcnNone ⟨128, 128⟩ ⟨128, 138⟩ ⟨0, 0⟩).2.2.2.2.1 (by decide),
   by decide,
   (claim_C7 padCal gcnNone ⟨128, 128⟩ ⟨128, 139⟩ ⟨0, 0⟩).2.2.2.2.2 (by decide)⟩

/-! ## Command Frame Codec: poll-frame build (`__osPackReadData`) -/

/-- Modelled from the spec: usable byte capacity of the shared command buffer
(the PIF RAM array that holds the command blocks; the final status word of the
64-byte PIF RAM is separate bookkeeping). -/
def PIF_RAM_CMD_CAPACITY : Nat := 60

/-- Byte image of the constant standard-protocol read block
`sN64WriteFormat` (joybus.c lines 220-225): transmit length 1, receive
length 4, the read-button command id, and 4 receive bytes preset to the
no-op filler. -/
def sN64WriteFormatBytes : List Nat :=
  [0x01, 0x04, CONT_CMD_READ_BUTTON, PIF_CMD_NOP, PIF_CMD_NOP, PIF_CMD_NOP, PIF_CMD_NOP]

/-- Byte image of the extended-protocol short-poll block written by the
encoder (joybus.c lines 228-235 and 256-257): transmit length 3, receive
length 8, the short-poll command id, the fixed analog submode 3, the
channel's cached rumble state, and 8 receive bytes preset to the no-op
filler. -/
def gcnShortPollBlock (rumble : Nat) : List Nat :=
  [0x03, 0x08, CONT_CMD_GCN_SHORT_POLL, GCN_MODE_3_220, rumble] ++ List.replicate 8 PIF_CMD_NOP

/-- The bytes the encoder emits for one channel (the body of the per-port
loop of `__osPackReadData`, joybus.c lines 253-268): a full command block for
a plugged channel that is being status-polled or has a player assignment
(the extended short-poll block for extended devices, the standard read block
otherwise), and a single skip-channel sentinel byte for every other channel. -/
def packChannelChunk (p : OSPortInfo) (statusPolling : Bool) : List Nat :=
  if p.plugged && (statusPolling || p.playerNum != 0) then
    if p.type &&& CONT_CONSOLE_GCN != 0 then
      gcnShortPollBlock p.gcRumble
    else
      sN64WriteFormatBytes
  else
    [PIF_CMD_SKIP_CHNL]

/-- Embedding of `__osPackReadData` (joybus.c lines 242-272).  The C function
writes through a cursor into the zeroed PIF RAM, advancing past each emitted
block, and finally stores the end sentinel at the cursor; sequential cursor
writes are modelled as list concatenation over the four ports in fixed
order. -/
def __osPackReadData (reg : Fin 4 → OSPortInfo) (statusPolling : Bool) : List Nat :=
  packChannelChunk (reg 0) statusPolling ++
    (packChannelChunk (reg 1) statusPolling ++
      (packChannelChunk (reg 2) statusPolling ++
        (packChannelChunk (reg 3) statusPolling ++ [PIF_CMD_END])))

/-- Each per-channel chunk is at most as long as the largest block variant. -/
theorem packChannelChunk_length_le (p : OSPortInfo) (sp : Bool) :
    (packChannelChunk p sp).length ≤ 13 := by
  unfold packChannelChunk
  split_ifs <;> simp [gcnShortPollBlock, sN64WriteFormatBytes]

/-- No per-channel chunk contains the end sentinel, provided the cached
rumble state is one of the three motor command values. -/
theorem packChannelChunk_count_end (p : OSPortInfo) (sp : Bool)
    (h : p.gcRumble ≤ 2) :
    (packChannelChunk p sp).count PIF_CMD_END = 0 := by
  have hne : p.gcRumble ≠ PIF_CMD_END := by
    unfold PIF_CMD_END
    omega
  unfold packChannelChunk
  split_ifs <;>
    simp [gcnShortPollBlock, sN64WriteFormatBytes, List.count_cons, List.count_append,
      PIF_CMD_END, PIF_CMD_NOP, CONT_CMD_READ_BUTTON, CONT_CMD_GCN_SHORT_POLL,
      GCN_MODE_3_220, PIF_CMD_SKIP_CHNL, List.count_replicate] <;>
    simp [PIF_CMD_END] at hne <;>
    omega

/-- C1: for every registry configuration the poll-frame encoder processes the
4 channels in fixed order, emitting per channel either a single skip-channel
sentinel byte (channel unplugged, or not status-polling and no player
assignment) or one full fixed-size command block (the extended short-poll
block carrying that channel's cached rumble state for extended devices,
otherwise the standard read block), writes exactly one end-of-buffer
terminator immediately after the last block, and the total length never
exceeds the buffer capacity. -/
theorem claim_C1 (reg : Fin 4 → OSPortInfo) (sp : Bool)
    (hrum : ∀ i : Fin 4, (reg i).gcRumble ≤ 2) :
    __osPackReadData reg sp
        = packChannelChunk (reg 0) sp ++ packChannelChunk (reg 1) sp ++
          packChannelChunk (reg 2) sp ++ packChannelChunk (reg 3) sp ++ [PIF_CMD_END]
    ∧ (__osPackReadData reg sp).length ≤ PIF_RAM_CMD_CAPACITY
    ∧ (__osPackReadData reg sp).count PIF_CMD_END = 1
    ∧ (∀ i : Fin 4, ((reg i).plugged = false ∨ (sp = false ∧ (reg i).playerNum = 0)) →
        packChannelChunk (reg i) sp = [PIF_CMD_SKIP_CHNL])
    ∧ (∀ i : Fin 4, (reg i).plugged = true → (sp = true ∨ (reg i).playerNum ≠ 0) →
        (reg i).type &&& CONT_CONSOLE_GCN ≠ 0 →
        packChannelChunk (reg i) sp = gcnShortPollBlock (reg i).gcRumble)
    ∧ (∀ i : Fin 4, (reg i).plugged = true → (sp = true ∨ (reg i).playerNum ≠ 0) →
        (reg i).type &&& CONT_CONSOLE_GCN = 0 →
        packChannelChunk (reg i) sp = sN64WriteFormatBytes) := by
  refine ⟨by simp [__osPackReadData], ?_, ?_, ?_, ?_, ?_⟩
  · have h0 := packChannelChunk_length_le (reg 0) sp
    have h1 := packChannelChunk_length_le (reg 1) sp
    have h2 := packChannelChunk_length_le (reg 2) sp
    have h3 := packChannelChunk_length_le (reg 3) sp
    simp only [__osPackReadData, List.length_append, List.length_cons,
      List.length_nil, PIF_RAM_CMD_CAPACITY]
    omega
  · have h0 := packChannelChunk_count_end (reg 0) sp (hrum 0)
    have h1 := packChannelChunk_count_end (reg 1) sp (hrum 1)
    have h2 := packChannelChunk_count_end (reg 2) sp (hrum 2)
    have h3 := packChannelChunk_count_end (reg 3) sp (hrum 3)
    simp [__osPackReadData, List.count_append, h0, h1, h2, h3]
  · intro i hi
    rcases hi with h | ⟨hsp, hnum⟩
    · simp [packChannelChunk, h]
    · simp [packChannelChunk, hsp, hnum]
  · intro i hplug hpoll htype
    rcases hpoll with h | h <;>
      simp [packChannelChunk, hplug, h, htype]
  · intro i hplug hpoll htype
    rcases hpoll with h | h <;>
      simp [packChannelChunk, hplug, h, htype]

/-- A concrete registry used by the C1 witness: port 0 has an assigned
extended device, port 1 an assigned standard device, port 2 is plugged but
unassigned, port 3 is empty. -/
def demoReg : Fin 4 → OSPortInfo :=
  fun i =>
    if i = 0 then ⟨true, 1, 0x0900, MOTOR_START⟩
    else if i = 1 then ⟨true, 2, 0x0005, MOTOR_STOP⟩
    else if i = 2 then ⟨true, 0, 0x0005, MOTOR_STOP⟩
    else ⟨false, 0, 0, MOTOR_STOP⟩

theorem claim_C1_witness :
    (__osPackReadData demoReg false).length ≤ PIF_RAM_CMD_CAPACITY
    ∧ (__osPackReadData demoReg false).count PIF_CMD_END = 1
    ∧ packChannelChunk (demoReg 2) false = [PIF_CMD_SKIP_CHNL] :=
  ⟨(claim_C1 demoReg false (by decide)).2.1,
   (claim_C1 demoReg false (by decide)).2.2.1,
   (claim_C1 demoReg false (by decide)).2.2.2.1 2 (Or.inr ⟨rfl, rfl⟩)⟩

/-! ## Status/Query Decoder (`__osContGetInitDataEx`) -/

/-- One per-channel slot of the raw status-query response: the receive-size
byte carrying the error bits, the two bytes of the 16-bit device type in wire
order, and the raw status flag byte. -/
structure StatusResp where
  rx : Nat
  typeH : Nat
  typeL : Nat
  status : Nat
deriving DecidableEq

/-- One Device Status Record (`OSContStatus`): error code, 16-bit device
type and raw status flags. -/
structure OSContStatus where
  error : Nat
  type : Nat
  status : Nat
deriving DecidableEq

/-- The byte-swapped 16-bit device type of a status response slot, as the
decoder computes it: `(recv.type.l << 8) | recv.type.h` over u8 fields. -/
def statusRespType (r : StatusResp) : Nat :=
  ((r.typeL % 256) <<< 8) ||| (r.typeH % 256)

/-- The per-channel body of `__osContGetInitDataEx` (joybus.c lines 312-335):
the error nibble is always recorded; on success the device type is
byte-swapped, an all-ones null type is classified as a standard controller,
the registry slot is marked plugged with that class, and the channel
contributes its bit to the plugged mask.  On error the registry slot and the
stale type/status fields of the output record are left untouched.  Returns
the updated Device Status Record, the updated registry slot, and whether the
channel's bit is set. -/
def initDataChannel (r : StatusResp) (p : OSPortInfo) (d : OSContStatus) :
    OSContStatus × OSPortInfo × Bool :=
  let err := CHNL_ERR r.rx
  if err = CHNL_ERR_SUCCESS >>> 4 then
    let ty := statusRespType r
    let ptype := if ty = CONT_TYPE_NULL then CONT_TYPE_NORMAL else ty
    (⟨err, ty, r.status⟩, { p with type := ptype, plugged := true }, true)
  else
    ({ d with error := err }, p, false)

/-- Embedding of `__osContGetInitDataEx` (joybus.c lines 305-338).  The C
function walks the 4 fixed-size response slots in order, mutating the
per-port registry entries and output records (iterations touch disjoint
state) and or-ing `1 << port` into the bitmask; the result is the bitmask,
the output records, and the updated registry. -/
def __osContGetInitDataEx (resps : Fin 4 → StatusResp) (reg : Fin 4 → OSPortInfo)
    (data0 : Fin 4 → OSContStatus) :
    Nat × (Fin 4 → OSContStatus) × (Fin 4 → OSPortInfo) :=
  ( (if (initDataChannel (resps 0) (reg 0) (data0 0)).2.2 then 1 else 0) |||
      (if (initDataChannel (resps 1) (reg 1) (data0 1)).2.2 then 2 else 0) |||
      (if (initDataChannel (resps 2) (reg 2) (data0 2)).2.2 then 4 else 0) |||
      (if (initDataChannel (resps 3) (reg 3) (data0 3)).2.2 then 8 else 0),
    fun i => (initDataChannel (resps i) (reg i) (data0 i)).1,
    fun i => (initDataChannel (resps i) (reg i) (data0 i)).2.1 )

/-- The plugged bitmask has channel `i`'s bit set exactly when channel `i`'s
slot decoded successfully. -/
theorem initData_testBit (resps : Fin 4 → StatusResp) (reg : Fin 4 → OSPortInfo)
    (data0 : Fin 4 → OSContStatus) (port : Fin 4) :
    (__osContGetInitDataEx resps reg data0).1.testBit (port : Nat)
      = (initDataChannel (resps port) (reg port) (data0 port)).2.2 := by
  have key : ∀ (b0 b1 b2 b3 : Bool), ∀ k < 4,
      ((((if b0 = true then (1 : Nat) else 0) ||| (if b1 = true then 2 else 0)) |||
          (if b2 = true then 4 else 0)) ||| (if b3 = true then 8 else 0)).testBit k
        = (if k = 0 then b0 else if k = 1 then b1 else if k = 2 then b2 else b3) := by
    decide
  simp only [__osContGetInitDataEx]
  rcases port with ⟨v, hv⟩
  rw [key _ _ _ _ v hv]
  interval_cases v <;> simp

/-- C3: for each channel of a status-query response — on a success error
code the decoder byte-swaps the 16-bit device-type field, classifies the
all-ones null type as a standard controller, writes device class and
plugged=true into the registry slot, and sets the channel's bit in the
output mask; on a non-success error code the registry entry is left exactly
as it was (hence still unplugged) and the bit stays clear. -/
theorem claim_C3 (resps : Fin 4 → StatusResp) (reg : Fin 4 → OSPortInfo)
    (data0 : Fin 4 → OSContStatus) (port : Fin 4)
    (hunplugged : (reg port).plugged = false) :
    (CHNL_ERR (resps port).rx = CHNL_ERR_SUCCESS >>> 4 →
        ((__osContGetInitDataEx resps reg data0).2.2 port).plugged = true
        ∧ ((__osContGetInitDataEx resps reg data0).2.2 port).type
            = (if statusRespType (resps port) = CONT_TYPE_NULL then CONT_TYPE_NORMAL
               else statusRespType (resps port))
        ∧ ((__osContGetInitDataEx resps reg data0).2.1 port).type
            = statusRespType (resps port)
        ∧ (__osContGetInitDataEx resps reg data0).1.testBit (port : Nat) = true)
    ∧ (CHNL_ERR (resps port).rx ≠ CHNL_ERR_SUCCESS >>> 4 →
        (__osContGetInitDataEx resps reg data0).2.2 port = reg port
        ∧ ((__osContGetInitDataEx resps reg data0).2.2 port).plugged = false
        ∧ (__osContGetInitDataEx resps reg data0).1.testBit (port : Nat) = false) := by
  have hbit := initData_testBit resps reg data0 port
  constructor
  · intro hsucc
    refine ⟨?_, ?_, ?_, ?_⟩ <;>
      simp [__osContGetInitDataEx, initDataChannel, hsucc] at hbit ⊢ <;>
      simp [hbit]
  · intro herr
    refine ⟨?_, ?_, ?_⟩ <;>
      simp [__osContGetInitDataEx, initDataChannel, herr] at hbit ⊢ <;>
      simp [hbit, hunplugged]

/-- A concrete registry with nothing plugged, used by witnesses. -/
def emptyReg : Fin 4 → OSPortInfo := fun _ => ⟨false, 0, 0, 0⟩

/-- Concrete status responses used by the C3 witness: port 0 succeeds with a
null device type, port 1 fails with the no-response error bits. -/
def demoStatusResps : Fin 4 → StatusResp :=
  fun i =>
    if i = 0 then ⟨0x00, 0xFF, 0xFF, 0x01⟩
    else if i = 1 then ⟨CHNL_ERR_NORESP, 0, 0, 0⟩
    else ⟨0x00, 0x09, 0x00, 0x00⟩

/-- Zeroed output records used by witnesses. -/
def zeroData : Fin 4 → OSContStatus := fun _ => ⟨0, 0, 0⟩

theorem claim_C3_witness :
    (((__osContGetInitDataEx demoStatusResps emptyReg zeroData).2.2 0).plugged = true
      ∧ ((__osContGetInitDataEx demoStatusResps emptyReg zeroData).2.2 0).type
          = CONT_TYPE_NORMAL
      ∧ (__osContGetInitDataEx demoStatusResps emptyReg zeroData).1.testBit 0 = true)
    ∧ ((__osContGetInitDataEx demoStatusResps emptyReg zeroData).2.2 1 = emptyReg 1
      ∧ (__osContGetInitDataEx demoStatusResps emptyReg zeroData).1.testBit 1 = false) := by
  have h0 := (claim_C3 demoStatusResps emptyReg zeroData 0 (by decide)).1 (by decide)
  have h1 := (claim_C3 demoStatusResps emptyReg zeroData 1 (by decide)).2 (by decide)
  refine ⟨⟨h0.1, ?_, h0.2.2.2⟩, h1.1, h1.2.2⟩
  exact h0.2.1.trans (by decide)

/-! ## Rumble/Accessory Protocol (`__osMotorAccessEx`, `osMotorInitEx`) -/

/-- Modelled from the spec: PFS result code Success. -/
def PFS_ERR_SUCCESS : Nat := 0

/-- Modelled from the spec: PFS result code for a freshly inserted pack
(the "new pack detected" transition code). -/
def PFS_ERR_NEW_PACK : Nat := 2

/-- Modelled from the spec: PFS result code for a device-communication
(controller pack communication) error. -/
def PFS_ERR_CONTRFAIL : Nat := 4

/-- Modelled from the spec: PFS result code for an invalid operation. -/
def PFS_ERR_INVALID : Nat := 5

/-- Modelled from the spec: PFS result code for a wrong attached device. -/
def PFS_ERR_DEVICE : Nat := 11

/-- Modelled from the spec: empty file-system status word. -/
def PFS_STATUS_NONE : Nat := 0

/-- Modelled from the spec: status flag marking the motor as initialized. -/
def PFS_MOTOR_INITIALIZED : Nat := 0x8

/-- Modelled from the spec: accessory probe identifiers (rumble bank,
powered-off transfer pak, and the null id); distinct header values. -/
def ACCESSORY_ID_RUMBLE : Nat := 0x80

/-- Modelled from the spec: probe identifier of a powered-off transfer pak. -/
def ACCESSORY_ID_TRANSFER_OFF : Nat := 0xFE

/-- Modelled from the spec: null accessory identifier. -/
def ACCESSORY_ID_NULL : Nat := 0xFF

/-- Modelled from the spec: accessory block size in bytes. -/
def BLOCKSIZE : Nat := 32

/-- Modelled from the spec: block index of the rumble control address. -/
def CONT_BLOCK_RUMBLE : Nat := 0x600

/-- Modelled from the spec: the address CRC helper supplied by the accessory
file-system collaborator (`__osContAddressCrc` is declared but not defined in
the source); the spec fixes no algorithm, and the value is never decisive
below. -/
def __osContAddressCrc (addr : Nat) : Nat := addr % 32

/-- The file-system handle (`OSPfs`): status word and bound channel.  The
message queue is transport bookkeeping outside the model. -/
structure OSPfs where
  status : Nat
  channel : Fin 4
deriving DecidableEq

/-- The cached per-channel rumble command block held in `__MotorDataBuf`:
the size bytes, command id, the two accessory address bytes, the 32-byte
motor data area and the response CRC byte. -/
structure MotorBuf where
  tx : Nat
  rx : Nat
  cmdID : Nat
  addrH : Nat
  addrL : Nat
  sendData : List Nat
  recvCrc : Nat
deriving DecidableEq

/-- Embedding of `_MakeMotorData` (joybus.c lines 426-448): fills the cached
command block header — sizes, the accessory write command id, and the two
rumble-address bytes — leaving the data area and response byte as they were
(the C local struct leaves them uninitialized). -/
def _MakeMotorData (buf : MotorBuf) : MotorBuf :=
  { buf with
      tx := 35
      rx := 1
      cmdID := CONT_CMD_WRITE_MEMPAK
      addrH := CONT_BLOCK_RUMBLE >>> 3
      addrL := (__osContAddressCrc CONT_BLOCK_RUMBLE ||| (CONT_BLOCK_RUMBLE <<< 5)) % 256 }

/-- Point update of one registry slot. -/
def updReg (reg : Fin 4 → OSPortInfo) (i : Fin 4) (v : OSPortInfo) :
    Fin 4 → OSPortInfo :=
  fun j => if j = i then v else reg j

/-- Embedding of `__osMotorAccessEx` (joybus.c lines 356-412).  Inputs beyond
the C arguments are the response the PIF writes back into the block (its
receive-size byte and CRC byte); outputs are the PFS error code, the updated
registry, the updated cached block, and the number of bus transfers
performed (each write/read DMA pair counts as 2).  An uninitialized handle
is rejected before anything else; an extended-device channel only caches the
motor state in the registry; a standard channel masks the motor state to
Stop/Start, fills the data area of the cached block with it, performs the
transfer, and checks the returned CRC against the expected ack for the
issued command. -/
def __osMotorAccessEx (pfs : OSPfs) (reg : Fin 4 → OSPortInfo) (buf : MotorBuf)
    (motorState : Nat) (respRx respCrc : Nat) :
    Nat × (Fin 4 → OSPortInfo) × MotorBuf × Nat :=
  if pfs.status &&& PFS_MOTOR_INITIALIZED = 0 then
    (PFS_ERR_INVALID, reg, buf, 0)
  else if (reg pfs.channel).type &&& CONT_CONSOLE_GCN ≠ 0 then
    (PFS_ERR_SUCCESS, updReg reg pfs.channel { reg pfs.channel with gcRumble := motorState },
      buf, 0)
  else
    let ms := motorState &&& MOTOR_MASK_N64
    let buf1 := { buf with sendData := List.replicate BLOCKSIZE ms, rx := respRx, recvCrc := respCrc }
    let err0 := CHNL_ERR respRx
    let err :=
      if err0 = CHNL_ERR_SUCCESS >>> 4 then
        if ms = MOTOR_STOP then
          if respCrc ≠ 0x00 then PFS_ERR_CONTRFAIL else PFS_ERR_SUCCESS
        else
          if respCrc ≠ 0xEB then PFS_ERR_CONTRFAIL else PFS_ERR_SUCCESS
      else err0
    (err, reg, buf1, 2)

/-- C10: calling the motor start/stop operation on a handle whose status
lacks the motor-initialized flag returns the invalid-operation error
immediately — no bus transfer happens and the registry and the cached
command block are returned unchanged (the handle itself is never written by
the function). -/
theorem claim_C10 (pfs : OSPfs) (reg : Fin 4 → OSPortInfo) (buf : MotorBuf)
    (motorState respRx respCrc : Nat)
    (h : pfs.status &&& PFS_MOTOR_INITIALIZED = 0) :
    __osMotorAccessEx pfs reg buf motorState respRx respCrc
      = (PFS_ERR_INVALID, reg, buf, 0) := by
  simp [__osMotorAccessEx, h]

theorem claim_C10_witness :
    __osMotorAccessEx ⟨PFS_STATUS_NONE, 0⟩ emptyReg ⟨0, 0, 0, 0, 0, [], 0⟩
        MOTOR_START 0 0
      = (PFS_ERR_INVALID, emptyReg, ⟨0, 0, 0, 0, 0, [], 0⟩, 0) :=
  claim_C10 ⟨PFS_STATUS_NONE, 0⟩ emptyReg ⟨0, 0, 0, 0, 0, [], 0⟩ MOTOR_START 0 0 (by decide)

/-- C9: on a standard-protocol channel with rumble initialized, a Start
command whose returned ack byte differs from the expected Start value
returns the device-communication error while leaving the cached command
block's header (sizes, command id, address bytes) unchanged, and a
subsequent Stop call on the same channel that receives the correct Stop ack
still returns success. -/
theorem claim_C9 (pfs : OSPfs) (reg : Fin 4 → OSPortInfo) (buf : MotorBuf)
    (rx1 crc1 rx2 : Nat)
    (hinit : pfs.status &&& PFS_MOTOR_INITIALIZED ≠ 0)
    (hn64 : (reg pfs.channel).type &&& CONT_CONSOLE_GCN = 0)
    (herr1 : CHNL_ERR rx1 = CHNL_ERR_SUCCESS >>> 4)
    (hcrc1 : crc1 ≠ 0xEB)
    (herr2 : CHNL_ERR rx2 = CHNL_ERR_SUCCESS >>> 4) :
    (__osMotorAccessEx pfs reg buf MOTOR_START rx1 crc1).1 = PFS_ERR_CONTRFAIL
    ∧ (__osMotorAccessEx pfs reg buf MOTOR_START rx1 crc1).2.1 = reg
    ∧ (__osMotorAccessEx pfs reg buf MOTOR_START rx1 crc1).2.2.1.tx = buf.tx
    ∧ (__osMotorAccessEx pfs reg buf MOTOR_START rx1 crc1).2.2.1.cmdID = buf.cmdID
    ∧ (__osMotorAccessEx pfs reg buf MOTOR_START rx1 crc1).2.2.1.addrH = buf.addrH
    ∧ (__osMotorAccessEx pfs reg buf MOTOR_START rx1 crc1).2.2.1.addrL = buf.addrL
    ∧ (__osMotorAccessEx pfs
        (__osMotorAccessEx pfs reg buf MOTOR_START rx1 crc1).2.1
        (__osMotorAccessEx pfs reg buf MOTOR_START rx1 crc1).2.2.1
        MOTOR_STOP rx2 0x00).1 = PFS_ERR_SUCCESS := by
  have hstart : MOTOR_START &&& MOTOR_MASK_N64 ≠ MOTOR_STOP := by decide
  have hstop : MOTOR_STOP &&& MOTOR_MASK_N64 = MOTOR_STOP := by decide
  refine ⟨?_, ?_, ?_, ?_, ?_, ?_, ?_⟩ <;>
    simp [__osMotorAccessEx, hinit, hn64, herr1, herr2, hcrc1, hstart, hstop]

/-- A registry with a standard controller assigned on every port, used by
the motor witnesses. -/
def n64Reg : Fin 4 → OSPortInfo := fun _ => ⟨true, 1, CONT_TYPE_NORMAL, 0⟩

/-- A cached motor command block as `_MakeMotorData` builds it from an
all-zero buffer, used by the motor witnesses. -/
def demoMotorBuf : MotorBuf := _MakeMotorData ⟨0, 0, 0, 0, 0, [], 0⟩

theorem claim_C9_witness :
    (__osMotorAccessEx ⟨PFS_MOTOR_INITIALIZED, 0⟩ n64Reg demoMotorBuf MOTOR_START 0 0x14).1
        = PFS_ERR_CONTRFAIL
    ∧ (__osMotorAccessEx ⟨PFS_MOTOR_INITIALIZED, 0⟩ n64Reg demoMotorBuf MOTOR_START 0 0x14).2.2.1.cmdID
        = demoMotorBuf.cmdID
    ∧ (__osMotorAccessEx ⟨PFS_MOTOR_INITIALIZED, 0⟩
        (__osMotorAccessEx ⟨PFS_MOTOR_INITIALIZED, 0⟩ n64Reg demoMotorBuf MOTOR_START 0 0x14).2.1
        (__osMotorAccessEx ⟨PFS_MOTOR_INITIALIZED, 0⟩ n64Reg demoMotorBuf MOTOR_START 0 0x14).2.2.1
        MOTOR_STOP 0 0x00).1 = PFS_ERR_SUCCESS := by
  have h := claim_C9 ⟨PFS_MOTOR_INITIALIZED, 0⟩ n64Reg demoMotorBuf 0 0x14 0
    (by decide) (by decide) (by decide) (by decide) (by decide)
  exact ⟨h.1, h.2.2.2.1, h.2.2.2.2.2.2⟩

/-- The results the external accessory file-system collaborator returns for
the five probe steps of rumble initialization, in call order: the initial
bank-select (transfer-pak off), the retry bank-select taken only after a
new-pack result, the first detect read (result and last data byte), the
second bank-select (rumble), and the second detect read. -/
structure MotorInitEnv where
  selectOff : Nat
  selectRumbleRetry : Nat
  read1err : Nat
  read1data : Nat
  selectRumble2 : Nat
  read2err : Nat
  read2data : Nat
deriving DecidableEq

/-- The result of the initial bank-select step of `osMotorInitEx`
(joybus.c lines 470-475): a new-pack result triggers one retry that selects
the rumble bank, and the retry's result stands in for the step's. -/
def motorInitFirstSelect (env : MotorInitEnv) : Nat :=
  if env.selectOff = PFS_ERR_NEW_PACK then env.selectRumbleRetry else env.selectOff

/-- Embedding of `osMotorInitEx` (joybus.c lines 460-526) for one channel.
`gcn` says whether the channel's registry type has the extended-device bit
(extended channels skip the whole handshake); `env` carries the collaborator
results of the probe steps.  The result is the returned PFS error code and
the final `pfs->status` word (the status starts at `PFS_STATUS_NONE` and
becomes `PFS_MOTOR_INITIALIZED` only on the single success path). -/
def osMotorInitEx (gcn : Bool) (env : MotorInitEnv) : Nat × Nat :=
  if gcn then
    (PFS_ERR_SUCCESS, PFS_MOTOR_INITIALIZED)
  else
    let err1 := motorInitFirstSelect env
    if err1 ≠ PFS_ERR_SUCCESS then (err1, PFS_STATUS_NONE)
    else
      let err2 := if env.read1err = PFS_ERR_NEW_PACK then PFS_ERR_CONTRFAIL else env.read1err
      if err2 ≠ PFS_ERR_SUCCESS then (err2, PFS_STATUS_NONE)
      else if env.read1data = ACCESSORY_ID_TRANSFER_OFF then (PFS_ERR_DEVICE, PFS_STATUS_NONE)
      else
        let err3 := if env.selectRumble2 = PFS_ERR_NEW_PACK then PFS_ERR_CONTRFAIL else env.selectRumble2
        if err3 ≠ PFS_ERR_SUCCESS then (err3, PFS_STATUS_NONE)
        else
          let err4 := if env.read2err = PFS_ERR_NEW_PACK then PFS_ERR_CONTRFAIL else env.read2err
          if err4 ≠ PFS_ERR_SUCCESS then (err4, PFS_STATUS_NONE)
          else if env.read2data ≠ ACCESSORY_ID_RUMBLE then (PFS_ERR_DEVICE, PFS_STATUS_NONE)
          else (PFS_ERR_SUCCESS, PFS_MOTOR_INITIALIZED)

/-- C8 counterexample: on a standard-protocol channel, the very first probe
step (the initial bank-select) returns the non-success "new pack detected"
code, yet — its retry and every later step succeeding — the whole
initialization succeeds and reaches the Initialized state, contradicting
the claim that every probe step returning a non-success result fails the
whole initialization. -/
theorem claim_C8_counterexample :
    (MotorInitEnv.mk PFS_ERR_NEW_PACK PFS_ERR_SUCCESS PFS_ERR_SUCCESS
        ACCESSORY_ID_RUMBLE PFS_ERR_SUCCESS PFS_ERR_SUCCESS ACCESSORY_ID_RUMBLE).selectOff
      ≠ PFS_ERR_SUCCESS
    ∧ osMotorInitEx false
        (MotorInitEnv.mk PFS_ERR_NEW_PACK PFS_ERR_SUCCESS PFS_ERR_SUCCESS
          ACCESSORY_ID_RUMBLE PFS_ERR_SUCCESS PFS_ERR_SUCCESS ACCESSORY_ID_RUMBLE)
      = (PFS_ERR_SUCCESS, PFS_MOTOR_INITIALIZED) := by
  constructor
  · decide
  · decide

/-- C8 (amended): during rumble initialization on a standard-protocol
channel, every probe step that returns a non-success result fails the whole
initialization — the function returns that step's error, with a new-pack
result on any step after the first converted to the device-communication
error, and never reaches the Initialized state — except that a new-pack
result on the initial bank-select instead causes a single retry selecting
the rumble bank, whose result then stands in for the first step's; and when
every probe step succeeds and both detect reads identify a rumble pak the
initialization succeeds and reaches the Initialized state. -/
theorem claim_C8 (env : MotorInitEnv) :
    (motorInitFirstSelect env ≠ PFS_ERR_SUCCESS →
        osMotorInitEx false env = (motorInitFirstSelect env, PFS_STATUS_NONE))
    ∧ (motorInitFirstSelect env = PFS_ERR_SUCCESS →
        env.read1err ≠ PFS_ERR_SUCCESS →
        osMotorInitEx false env
          = ((if env.read1err = PFS_ERR_NEW_PACK then PFS_ERR_CONTRFAIL else env.read1err),
             PFS_STATUS_NONE))
    ∧ (motorInitFirstSelect env = PFS_ERR_SUCCESS →
        env.read1err = PFS_ERR_SUCCESS →
        env.read1data ≠ ACCESSORY_ID_TRANSFER_OFF →
        env.selectRumble2 ≠ PFS_ERR_SUCCESS →
        osMotorInitEx false env
          = ((if env.selectRumble2 = PFS_ERR_NEW_PACK then PFS_ERR_CONTRFAIL else env.selectRumble2),
             PFS_STATUS_NONE))
    ∧ (motorInitFirstSelect env = PFS_ERR_SUCCESS →
        env.read1err = PFS_ERR_SUCCESS →
        env.read1data ≠ ACCESSORY_ID_TRANSFER_OFF →
        env.selectRumble2 = PFS_ERR_SUCCESS →
        env.read2err ≠ PFS_ERR_SUCCESS →
        osMotorInitEx false env
          = ((if env.read2err = PFS_ERR_NEW_PACK then PFS_ERR_CONTRFAIL else env.read2err),
             PFS_STATUS_NONE))
    ∧ (motorInitFirstSelect env = PFS_ERR_SUCCESS →
        env.read1err = PFS_ERR_SUCCESS →
        env.read1data ≠ ACCESSORY_ID_TRANSFER_OFF →
        env.selectRumble2 = PFS_ERR_SUCCESS →
        env.read2err = PFS_ERR_SUCCESS →
        env.read2data = ACCESSORY_ID_RUMBLE →
        osMotorInitEx false env = (PFS_ERR_SUCCESS, PFS_MOTOR_INITIALIZED)) := by
  refine ⟨?_, ?_, ?_, ?_, ?_⟩
  · intro h1
    simp [osMotorInitEx, h1]
  · intro h1 h2
    have h2' : env.read1err ≠ 0 := by simpa [PFS_ERR_SUCCESS] using h2
    by_cases hnp : env.read1err = 2 <;>
      simp [osMotorInitEx, h1, h2', hnp, PFS_ERR_CONTRFAIL, PFS_ERR_SUCCESS,
        PFS_ERR_NEW_PACK]
  · intro h1 h2 h3 h4
    have h4' : env.selectRumble2 ≠ 0 := by simpa [PFS_ERR_SUCCESS] using h4
    by_cases hnp : env.selectRumble2 = 2 <;>
      simp [osMotorInitEx, h1, h2, h3, h4', hnp, PFS_ERR_CONTRFAIL, PFS_ERR_SUCCESS,
        PFS_ERR_NEW_PACK]
  · intro h1 h2 h3 h4 h5
    have h5' : env.read2err ≠ 0 := by simpa [PFS_ERR_SUCCESS] using h5
    by_cases hnp : env.read2err = 2 <;>
      simp [osMotorInitEx, h1, h2, h3, h4, h5', hnp, PFS_ERR_CONTRFAIL, PFS_ERR_SUCCESS,
        PFS_ERR_NEW_PACK]
  · intro h1 h2 h3 h4 h5 h6
    simp [osMotorInitEx, h1, h2, h3, h4, h5, h6, PFS_ERR_SUCCESS, PFS_ERR_NEW_PACK]

theorem claim_C8_witness :
    osMotorInitEx false
        (MotorInitEnv.mk PFS_ERR_SUCCESS PFS_ERR_SUCCESS PFS_ERR_NEW_PACK 0
          PFS_ERR_SUCCESS PFS_ERR_SUCCESS ACCESSORY_ID_RUMBLE)
      = (PFS_ERR_CONTRFAIL, PFS_STATUS_NONE) :=
  ((claim_C8 (MotorInitEnv.mk PFS_ERR_SUCCESS PFS_ERR_SUCCESS PFS_ERR_NEW_PACK 0
      PFS_ERR_SUCCESS PFS_ERR_SUCCESS ACCESSORY_ID_RUMBLE)).2.1
    (by decide) (by decide)).trans (by decide)

/-! ## Command Frame Codec: poll-frame parse (`osContGetReadDataEx`) -/

/-- Reinterpret a byte as a signed 8-bit value, as reading an `s8` field does. -/
def toS8 (n : Nat) : Int :=
  if n % 256 < 128 then (n % 256 : Int) else (n % 256 : Int) - 256

/-- The standard-protocol branch of the decoder (joybus.c lines 147-155):
from the 7-byte read block starting at the cursor, copy the button word and
the signed stick bytes and zero the secondary stick and trigger pair.  The
channel error field was already recorded by the caller. -/
def decodeN64Pad (p : OSContPadEx) (bytes : List Nat) : OSContPadEx :=
  { p with
      button := N64Buttons.ofRaw ((bytes.getD 3 0) * 256 + bytes.getD 4 0)
      stick := ⟨toS8 (bytes.getD 5 0), toS8 (bytes.getD 6 0)⟩
      c_stick := ⟨0, 0⟩
      trig := ⟨0, 0⟩ }

/-- The extended-protocol short-poll branch (joybus.c lines 160-189): the
13-byte block holds the echoed submode selector at offset 3 and the 8
response bytes from offset 5 — button word, primary stick, then the modal
secondary-stick/trigger bytes whose widths depend on the submode; 4-bit
fields are widened by nibble replication before the common normalization. -/
def decodeGCNShort (p : OSContPadEx) (bytes : List Nat) : OSContPadEx :=
  let g := fun n => bytes.getD n 0
  let mode := g 3
  let buttons := GCNButtons.ofRaw (g 5 * 256 + g 6)
  let stick : Analog_u8 := ⟨g 7, g 8⟩
  let cs_trig : Analog_u8 × Analog_u8 :=
    if mode = GCN_MODE_1_121 then
      ⟨ANALOG_U4_TO_U8 ⟨hiNibble (g 9), loNibble (g 9)⟩, ⟨g 10, g 11⟩⟩
    else if mode = GCN_MODE_2_112 then
      ⟨ANALOG_U4_TO_U8 ⟨hiNibble (g 9), loNibble (g 9)⟩,
       ANALOG_U4_TO_U8 ⟨hiNibble (g 10), loNibble (g 10)⟩⟩
    else if mode = GCN_MODE_3_220 then
      ⟨⟨g 9, g 10⟩, ⟨g 11, g 12⟩⟩
    else if mode = GCN_MODE_4_202 then
      ⟨⟨g 9, g 10⟩, ⟨0, 0⟩⟩
    else
      ⟨⟨g 9, g 10⟩, ANALOG_U4_TO_U8 ⟨hiNibble (g 11), loNibble (g 11)⟩⟩
  __osContReadGCNInputData p buttons stick cs_trig.1 cs_trig.2

/-- The extended-protocol long-poll branch (joybus.c lines 197-207): the
15-byte block returns full 8-bit width for every axis (offsets 5-12; the two
trailing auxiliary analog-button bytes are not used by the mapping). -/
def decodeGCNLong (p : OSContPadEx) (bytes : List Nat) : OSContPadEx :=
  let g := fun n => bytes.getD n 0
  __osContReadGCNInputData p (GCNButtons.ofRaw (g 5 * 256 + g 6))
    ⟨g 7, g 8⟩ ⟨g 9, g 10⟩ ⟨g 11, g 12⟩

/-- Embedding of the decode loop of `osContGetReadDataEx` (joybus.c lines
122-216).  The C loop walks the buffer with a byte cursor and a pad pointer
into the 4-slot array; here `pads` is the not-yet-visited suffix of that
array and the returned list is its updated version (processed pads are
consed back on).  The two Bool results are the externally observable
signals: whether `start_controller_status_polling` was invoked (the forced
status-repoll on a no-response channel) and whether the fatal
unknown-command path was taken.  The fuel argument only bounds the number of
loop iterations; each iteration consumes at least one byte, so the byte
count is always sufficient fuel. -/
def decodeLoop : Nat → List Nat → List OSContPadEx → List OSContPadEx × Bool × Bool
  | 0, _, pads => (pads, false, false)
  | _ + 1, [], pads => (pads, false, false)
  | fuel + 1, b :: bs, pads =>
    if b = PIF_CMD_END then
      (pads, false, false)
    else if b = PIF_CMD_SKIP_CHNL ∨ b = PIF_CMD_RESET_CHNL then
      match pads with
      | [] => ([], false, false)
      | p :: ps =>
        let r := decodeLoop fuel bs ps
        (p :: r.1, r.2)
    else if b = PIF_CMD_NOP then
      decodeLoop fuel bs pads
    else
      match pads with
      | [] => ([], false, false)
      | p :: ps =>
        let rx := bs.getD 0 0
        let cmd := bs.getD 1 0
        let err := CHNL_ERR rx
        let p1 := { p with errno := err }
        if err = CHNL_ERR_NORESP >>> 4 then
          (p1 :: ps, true, false)
        else if cmd = CONT_CMD_READ_BUTTON then
          let p2 := if err = CHNL_ERR_SUCCESS >>> 4 then decodeN64Pad p1 (b :: bs) else p1
          let r := decodeLoop fuel (bs.drop 6) ps
          (p2 :: r.1, r.2)
        else if cmd = CONT_CMD_GCN_SHORT_POLL then
          let p2 :=
            if err = CHNL_ERR_SUCCESS >>> 4 then decodeGCNShort p1 (b :: bs)
            else { p1 with origins := { p1.origins with initialized := false } }
          let r := decodeLoop fuel (bs.drop 12) ps
          (p2 :: r.1, r.2)
        else if cmd = CONT_CMD_GCN_LONG_POLL then
          let p2 :=
            if err = CHNL_ERR_SUCCESS >>> 4 then decodeGCNLong p1 (b :: bs)
            else { p1 with origins := { p1.origins with initialized := false } }
          let r := decodeLoop fuel (bs.drop 14) ps
          (p2 :: r.1, r.2)
        else
          (p1 :: ps, false, true)

/-- Embedding of `osContGetReadDataEx`: run the decode loop on the response
buffer over the 4-slot pad array (the byte count bounds the iterations). -/
def osContGetReadDataEx (bytes : List Nat) (pads : List OSContPadEx) :
    List OSContPadEx × Bool × Bool :=
  decodeLoop bytes.length bytes pads

/-- One channel's contribution to a response buffer, as the encoder and the
PIF lay it out: either the skip-channel sentinel byte or a command block
with its transmit-size byte, receive-size byte (carrying the error bits),
command id and payload bytes. -/
inductive ChannelResp where
  | skip : ChannelResp
  | resp (tx rx cmd : Nat) (payload : List Nat) : ChannelResp
deriving DecidableEq

/-- The bytes of one channel's response. -/
def ChannelResp.bytes : ChannelResp → List Nat
  | .skip => [PIF_CMD_SKIP_CHNL]
  | .resp tx rx cmd payload => tx :: rx :: cmd :: payload

/-- A response buffer: the per-channel responses in channel order followed
by the end-of-buffer sentinel. -/
def frameBytes (resps : List ChannelResp) : List Nat :=
  (resps.map ChannelResp.bytes).flatten ++ [PIF_CMD_END]

/-- Well-formedness of one channel response within a frame: the block must
not start with a structural sentinel byte, and the payload length must match
the fixed block size of its command (4, 10 and 12 payload bytes for the
7-, 13- and 15-byte read, short-poll and long-poll blocks). -/
def respWf : ChannelResp → Prop
  | .skip => True
  | .resp tx _ cmd payload =>
      tx ≠ PIF_CMD_END ∧ tx ≠ PIF_CMD_SKIP_CHNL ∧ tx ≠ PIF_CMD_RESET_CHNL ∧ tx ≠ PIF_CMD_NOP
      ∧ (cmd = CONT_CMD_READ_BUTTON → payload.length = 4)
      ∧ (cmd = CONT_CMD_GCN_SHORT_POLL → payload.length = 10)
      ∧ (cmd = CONT_CMD_GCN_LONG_POLL → payload.length = 12)

instance (r : ChannelResp) : Decidable (respWf r) := by
  cases r <;> simp only [respWf] <;> infer_instance

/-- Whether a channel response carries the no-response error code. -/
def ChannelResp.isNoResp : ChannelResp → Bool
  | .skip => false
  | .resp _ rx _ _ => CHNL_ERR rx == CHNL_ERR_NORESP >>> 4

/-- Whether a channel response carries a recognized command id. -/
def ChannelResp.isKnownCmd : ChannelResp → Bool
  | .skip => true
  | .resp _ _ cmd _ =>
      cmd == CONT_CMD_READ_BUTTON || cmd == CONT_CMD_GCN_SHORT_POLL ||
        cmd == CONT_CMD_GCN_LONG_POLL

/-- Whether a channel response hits the fatal unknown-command path (reached
only when the no-response check did not already abort). -/
def ChannelResp.isUnknownCmd (r : ChannelResp) : Bool := !r.isNoResp && !r.isKnownCmd

/-- Whether decoding this channel aborts the remainder of the pass. -/
def ChannelResp.aborts (r : ChannelResp) : Bool := r.isNoResp || r.isUnknownCmd

/-- Reference decoder, structured channel by channel exactly as the spec
describes the pass: channels are processed in order; a no-response error
records the error code, triggers the repoll signal and stops; an
unrecognized command records the error code and stops with the fatal flag;
every other response records its error code in the channel's error field
(decoding the payload on success) and processing continues. -/
def specDecode : List ChannelResp → List OSContPadEx → List OSContPadEx × Bool × Bool
  | [], pads => (pads, false, false)
  | _ :: _, [] => ([], false, false)
  | .skip :: rs, p :: ps =>
    let r := specDecode rs ps
    (p :: r.1, r.2)
  | .resp tx rx cmd payload :: rs, p :: ps =>
    let err := CHNL_ERR rx
    let p1 := { p with errno := err }
    if err = CHNL_ERR_NORESP >>> 4 then
      (p1 :: ps, true, false)
    else if cmd = CONT_CMD_READ_BUTTON then
      let p2 := if err = CHNL_ERR_SUCCESS >>> 4 then decodeN64Pad p1 (tx :: rx :: cmd :: payload) else p1
      let r := specDecode rs ps
      (p2 :: r.1, r.2)
    else if cmd = CONT_CMD_GCN_SHORT_POLL then
      let p2 :=
        if err = CHNL_ERR_SUCCESS >>> 4 then decodeGCNShort p1 (tx :: rx :: cmd :: payload)
        else { p1 with origins := { p1.origins with initialized := false } }
      let r := specDecode rs ps
      (p2 :: r.1, r.2)
    else if cmd = CONT_CMD_GCN_LONG_POLL then
      let p2 :=
        if err = CHNL_ERR_SUCCESS >>> 4 then decodeGCNLong p1 (tx :: rx :: cmd :: payload)
        else { p1 with origins := { p1.origins with initialized := false } }
      let r := specDecode rs ps
      (p2 :: r.1, r.2)
    else
      (p1 :: ps, false, true)

/-- The frame of an empty channel list is just the end sentinel. -/
theorem frameBytes_nil : frameBytes [] = [PIF_CMD_END] := rfl

/-- A frame decomposes channel by channel. -/
theorem frameBytes_cons (r : ChannelResp) (rs : List ChannelResp) :
    frameBytes (r :: rs) = r.bytes ++ frameBytes rs := by
  simp [frameBytes]

/-- Reading inside the left part of an appended list ignores the right part. -/
theorem getD_append_left (l r : List Nat) (n d : Nat) (h : n < l.length) :
    (l ++ r).getD n d = l.getD n d := by
  induction l generalizing n with
  | nil => simp at h
  | cons a t ih =>
    cases n with
    | zero => rfl
    | succ m => simpa using ih m (by simpa using h)

/-- The standard-protocol branch only reads the 7 bytes of its block. -/
theorem decodeN64Pad_align (p : OSContPadEx) (tx rx cmd : Nat)
    (payload rest : List Nat) (h : payload.length = 4) :
    decodeN64Pad p (tx :: rx :: cmd :: (payload ++ rest))
      = decodeN64Pad p (tx :: rx :: cmd :: payload) := by
  have e3 : (tx :: rx :: cmd :: (payload ++ rest)).getD 3 0
      = (tx :: rx :: cmd :: payload).getD 3 0 := getD_append_left payload rest 0 0 (by omega)
  have e4 : (tx :: rx :: cmd :: (payload ++ rest)).getD 4 0
      = (tx :: rx :: cmd :: payload).getD 4 0 := getD_append_left payload rest 1 0 (by omega)
  have e5 : (tx :: rx :: cmd :: (payload ++ rest)).getD 5 0
      = (tx :: rx :: cmd :: payload).getD 5 0 := getD_append_left payload rest 2 0 (by omega)
  have e6 : (tx :: rx :: cmd :: (payload ++ rest)).getD 6 0
      = (tx :: rx :: cmd :: payload).getD 6 0 := getD_append_left payload rest 3 0 (by omega)
  simp only [decodeN64Pad, e3, e4, e5, e6]

/-- The short-poll branch only reads the 13 bytes of its block. -/
theorem decodeGCNShort_align (p : OSContPadEx) (tx rx cmd : Nat)
    (payload rest : List Nat) (h : payload.length = 10) :
    decodeGCNShort p (tx :: rx :: cmd :: (payload ++ rest))
      = decodeGCNShort p (tx :: rx :: cmd :: payload) := by
  have e3 : (tx :: rx :: cmd :: (payload ++ rest)).getD 3 0
      = (tx :: rx :: cmd :: payload).getD 3 0 := getD_append_left payload rest 0 0 (by omega)
  have e5 : (tx :: rx :: cmd :: (payload ++ rest)).getD 5 0
      = (tx :: rx :: cmd :: payload).getD 5 0 := getD_append_left payload rest 2 0 (by omega)
  have e6 : (tx :: rx :: cmd :: (payload ++ rest)).getD 6 0
      = (tx :: rx :: cmd :: payload).getD 6 0 := getD_append_left payload rest 3 0 (by omega)
  have e7 : (tx :: rx :: cmd :: (payload ++ rest)).getD 7 0
      = (tx :: rx :: cmd :: payload).getD 7 0 := getD_append_left payload rest 4 0 (by omega)
  have e8 : (tx :: rx :: cmd :: (payload ++ rest)).getD 8 0
      = (tx :: rx :: cmd :: payload).getD 8 0 := getD_append_left payload rest 5 0 (by omega)
  have e9 : (tx :: rx :: cmd :: (payload ++ rest)).getD 9 0
      = (tx :: rx :: cmd :: payload).getD 9 0 := getD_append_left payload rest 6 0 (by omega)
  have e10 : (tx :: rx :: cmd :: (payload ++ rest)).getD 10 0
      = (tx :: rx :: cmd :: payload).getD 10 0 := getD_append_left payload rest 7 0 (by omega)
  have e11 : (tx :: rx :: cmd :: (payload ++ rest)).getD 11 0
      = (tx :: rx :: cmd :: payload).getD 11 0 := getD_append_left payload rest 8 0 (by omega)
  have e12 : (tx :: rx :: cmd :: (payload ++ rest)).getD 12 0
      = (tx :: rx :: cmd :: payload).getD 12 0 := getD_append_left payload rest 9 0 (by omega)
  simp only [decodeGCNShort, e3, e5, e6, e7, e8, e9, e10, e11, e12]

/-- The long-poll branch only reads bytes inside its 15-byte block. -/
theorem decodeGCNLong_align (p : OSContPadEx) (tx rx cmd : Nat)
    (payload rest : List Nat) (h : payload.length = 12) :
    decodeGCNLong p (tx :: rx :: cmd :: (payload ++ rest))
      = decodeGCNLong p (tx :: rx :: cmd :: payload) := by
  have e5 : (tx :: rx :: cmd :: (payload ++ rest)).getD 5 0
      = (tx :: rx :: cmd :: payload).getD 5 0 := getD_append_left payload rest 2 0 (by omega)
  have e6 : (tx :: rx :: cmd :: (payload ++ rest)).getD 6 0
      = (tx :: rx :: cmd :: payload).getD 6 0 := getD_append_left payload rest 3 0 (by omega)
  have e7 : (tx :: rx :: cmd :: (payload ++ rest)).getD 7 0
      = (tx :: rx :: cmd :: payload).getD 7 0 := getD_append_left payload rest 4 0 (by omega)
  have e8 : (tx :: rx :: cmd :: (payload ++ rest)).getD 8 0
      = (tx :: rx :: cmd :: payload).getD 8 0 := getD_append_left payload rest 5 0 (by omega)
  have e9 : (tx :: rx :: cmd :: (payload ++ rest)).getD 9 0
      = (tx :: rx :: cmd :: payload).getD 9 0 := getD_append_left payload rest 6 0 (by omega)
  have e10 : (tx :: rx :: cmd :: (payload ++ rest)).getD 10 0
      = (tx :: rx :: cmd :: payload).getD 10 0 := getD_append_left payload rest 7 0 (by omega)
  have e11 : (tx :: rx :: cmd :: (payload ++ rest)).getD 11 0
      = (tx :: rx :: cmd :: payload).getD 11 0 := getD_append_left payload rest 8 0 (by omega)
  have e12 : (tx :: rx :: cmd :: (payload ++ rest)).getD 12 0
      = (tx :: rx :: cmd :: payload).getD 12 0 := getD_append_left payload rest 9 0 (by omega)
  simp only [decodeGCNLong, e5, e6, e7, e8, e9, e10, e11, e12]

/-- The byte-cursor decode loop computes exactly the channel-structured
reference pass on every well-formed frame. -/
theorem decodeLoop_frame :
    ∀ (resps : List ChannelResp) (pads : List OSContPadEx) (fuel : Nat),
      (∀ r ∈ resps, respWf r) → (frameBytes resps).length ≤ fuel →
      decodeLoop fuel (frameBytes resps) pads = specDecode resps pads := by
  intro resps
  induction resps with
  | nil =>
    intro pads fuel _ hf
    cases fuel with
    | zero => simp [frameBytes] at hf
    | succ f => simp [frameBytes, decodeLoop, specDecode]
  | cons r rs ih =>
    intro pads fuel hwf hf
    have hwf' : ∀ x ∈ rs, respWf x := fun x hx => hwf x (by simp [hx])
    rw [frameBytes_cons] at hf ⊢
    cases fuel with
    | zero =>
      exfalso
      cases r <;> simp [ChannelResp.bytes, frameBytes] at hf
    | succ f =>
      cases r with
      | skip =>
        have hrest : (frameBytes rs).length ≤ f := by
          simp [ChannelResp.bytes] at hf
          omega
        cases pads with
        | nil => simp [ChannelResp.bytes, decodeLoop, specDecode, PIF_CMD_SKIP_CHNL, PIF_CMD_END]
        | cons p ps =>
          have hrec := ih ps f hwf' hrest
          simp [ChannelResp.bytes, decodeLoop, specDecode, PIF_CMD_SKIP_CHNL, PIF_CMD_END,
            hrec]
      | resp tx rx cmd payload =>
        obtain ⟨htx1, htx2, htx3, htx4, hlen1, hlen2, hlen3⟩ :=
          hwf (ChannelResp.resp tx rx cmd payload) (by simp)
        have hrest : (frameBytes rs).length ≤ f := by
          simp [ChannelResp.bytes] at hf
          omega
        have hframe : ChannelResp.bytes (.resp tx rx cmd payload) ++ frameBytes rs
            = tx :: rx :: cmd :: (payload ++ frameBytes rs) := by
          simp [ChannelResp.bytes]
        rw [hframe]
        cases pads with
        | nil =>
          simp [decodeLoop, specDecode, htx1, htx2, htx3, htx4]
        | cons p ps =>
          have hrec := ih ps f hwf' hrest
          by_cases herr : CHNL_ERR rx = CHNL_ERR_NORESP >>> 4
          · simp [decodeLoop, specDecode, htx1, htx2, htx3, htx4, herr]
          · by_cases hc1 : cmd = CONT_CMD_READ_BUTTON
            · subst hc1
              have hplen := hlen1 rfl
              have hdrop : List.drop 4 (payload ++ frameBytes rs) = frameBytes rs := by
                rw [show (4 : Nat) = payload.length from hplen.symm, List.drop_left]
              have halign := decodeN64Pad_align
                ({ p with errno := CHNL_ERR rx }) tx rx CONT_CMD_READ_BUTTON payload
                (frameBytes rs) hplen
              simp [decodeLoop, specDecode, htx1, htx2, htx3, htx4, herr, hdrop,
                hrec, halign]
            · by_cases hc2 : cmd = CONT_CMD_GCN_SHORT_POLL
              · subst hc2
                have hplen := hlen2 rfl
                have hdrop : List.drop 10 (payload ++ frameBytes rs) = frameBytes rs := by
                  rw [show (10 : Nat) = payload.length from hplen.symm, List.drop_left]
                have halign := decodeGCNShort_align
                  ({ p with errno := CHNL_ERR rx }) tx rx CONT_CMD_GCN_SHORT_POLL payload
                  (frameBytes rs) hplen
                simp [decodeLoop, specDecode, htx1, htx2, htx3, htx4, herr, hc1, hdrop,
                  hrec, halign]
              · by_cases hc3 : cmd = CONT_CMD_GCN_LONG_POLL
                · subst hc3
                  have hplen := hlen3 rfl
                  have hdrop : List.drop 12 (payload ++ frameBytes rs) = frameBytes rs := by
                    rw [show (12 : Nat) = payload.length from hplen.symm, List.drop_left]
                  have halign := decodeGCNLong_align
                    ({ p with errno := CHNL_ERR rx }) tx rx CONT_CMD_GCN_LONG_POLL payload
                    (frameBytes rs) hplen
                  simp [decodeLoop, specDecode, htx1, htx2, htx3, htx4, herr, hc1, hc2,
                    hdrop, hrec, halign]
                · simp [decodeLoop, specDecode, htx1, htx2, htx3, htx4, herr, hc1, hc2, hc3]

/-- A command response does not abort the pass exactly when its error code
is not the no-response code and its command id is recognized. -/
theorem aborts_false_iff (tx rx cmd : Nat) (payload : List Nat) :
    (ChannelResp.resp tx rx cmd payload).aborts = false ↔
      CHNL_ERR rx ≠ CHNL_ERR_NORESP >>> 4
      ∧ (cmd = CONT_CMD_READ_BUTTON ∨ cmd = CONT_CMD_GCN_SHORT_POLL
          ∨ cmd = CONT_CMD_GCN_LONG_POLL) := by
  simp [ChannelResp.aborts, ChannelResp.isNoResp, ChannelResp.isUnknownCmd,
    ChannelResp.isKnownCmd]
  tauto

/-- The standard-protocol payload decode does not touch the error field. -/
theorem decodeN64Pad_errno (p : OSContPadEx) (l : List Nat) :
    (decodeN64Pad p l).errno = p.errno := rfl

/-- The short-poll payload decode does not touch the error field. -/
theorem decodeGCNShort_errno (p : OSContPadEx) (l : List Nat) :
    (decodeGCNShort p l).errno = p.errno := rfl

/-- The long-poll payload decode does not touch the error field. -/
theorem decodeGCNLong_errno (p : OSContPadEx) (l : List Nat) :
    (decodeGCNLong p l).errno = p.errno := rfl

/-- A command response hits the fatal unknown-command path exactly when its
error code is not no-response and its command id is none of the three
recognized ids. -/
theorem isUnknownCmd_true_iff (tx rx cmd : Nat) (payload : List Nat) :
    (ChannelResp.resp tx rx cmd payload).isUnknownCmd = true ↔
      CHNL_ERR rx ≠ CHNL_ERR_NORESP >>> 4 ∧ cmd ≠ CONT_CMD_READ_BUTTON
      ∧ cmd ≠ CONT_CMD_GCN_SHORT_POLL ∧ cmd ≠ CONT_CMD_GCN_LONG_POLL := by
  simp [ChannelResp.isUnknownCmd, ChannelResp.isNoResp, ChannelResp.isKnownCmd]
  tauto

/-- When no channel aborts, the reference pass raises neither the repoll
signal nor the fatal flag. -/
theorem specDecode_noAbort :
    ∀ (resps : List ChannelResp) (pads : List OSContPadEx),
      (∀ r ∈ resps, r.aborts = false) →
      (specDecode resps pads).2.1 = false ∧ (specDecode resps pads).2.2 = false := by
  intro resps
  induction resps with
  | nil => intro pads _; simp [specDecode]
  | cons r rs ih =>
    intro pads h
    have hr := h r (by simp)
    have hrs : ∀ x ∈ rs, x.aborts = false := fun x hx => h x (by simp [hx])
    cases pads with
    | nil =>
      cases r <;> simp [specDecode]
    | cons p ps =>
      cases r with
      | skip => simpa [specDecode] using ih ps hrs
      | resp tx rx cmd payload =>
        obtain ⟨herr, hknown⟩ := (aborts_false_iff tx rx cmd payload).mp hr
        rcases hknown with hc | hc | hc <;> subst hc <;>
          simpa [specDecode, herr] using ih ps hrs

/-- A no-response channel with no earlier aborting channel raises the repoll
signal, leaves the fatal flag clear, and leaves every later channel's pad
untouched. -/
theorem specDecode_noResp_at :
    ∀ (k : Nat) (resps : List ChannelResp) (pads : List OSContPadEx),
      k < resps.length → k < pads.length →
      (∀ j, j < k → (resps.getD j ChannelResp.skip).aborts = false) →
      (resps.getD k ChannelResp.skip).isNoResp = true →
      (specDecode resps pads).2.1 = true ∧ (specDecode resps pads).2.2 = false
      ∧ (specDecode resps pads).1.drop (k + 1) = pads.drop (k + 1) := by
  intro k
  induction k with
  | zero =>
    intro resps pads hkr hkp _ hno
    cases resps with
    | nil => simp at hkr
    | cons r rs =>
      cases pads with
      | nil => simp at hkp
      | cons p ps =>
        cases r with
        | skip => simp [ChannelResp.isNoResp] at hno
        | resp tx rx cmd payload =>
          simp only [List.getD_cons_zero, ChannelResp.isNoResp, beq_iff_eq] at hno
          simp [specDecode, hno]
  | succ k ih =>
    intro resps pads hkr hkp habort hno
    cases resps with
    | nil => simp at hkr
    | cons r rs =>
      cases pads with
      | nil => simp at hkp
      | cons p ps =>
        have h0 : r.aborts = false := by
          have := habort 0 (by omega)
          simpa using this
        have habort' : ∀ j, j < k → (rs.getD j ChannelResp.skip).aborts = false := by
          intro j hj
          have := habort (j + 1) (by omega)
          simpa using this
        have hno' : (rs.getD k ChannelResp.skip).isNoResp = true := by
          simpa using hno
        have hkr' : k < rs.length := by simpa using Nat.lt_of_succ_lt_succ hkr
        have hkp' : k < ps.length := by simpa using Nat.lt_of_succ_lt_succ hkp
        have IH := ih rs ps hkr' hkp' habort' hno'
        cases r with
        | skip =>
          simpa [specDecode] using IH
        | resp tx rx cmd payload =>
          obtain ⟨herr, hknown⟩ := (aborts_false_iff tx rx cmd payload).mp h0
          rcases hknown with hc | hc | hc <;> subst hc <;>
            simpa [specDecode, herr] using IH

/-- An unknown-command channel with no earlier aborting channel raises the
fatal flag, leaves the repoll signal clear, and leaves every later channel's
pad untouched. -/
theorem specDecode_unknown_at :
    ∀ (k : Nat) (resps : List ChannelResp) (pads : List OSContPadEx),
      k < resps.length → k < pads.length →
      (∀ j, j < k → (resps.getD j ChannelResp.skip).aborts = false) →
      (resps.getD k ChannelResp.skip).isUnknownCmd = true →
      (specDecode resps pads).2.2 = true ∧ (specDecode resps pads).2.1 = false
      ∧ (specDecode resps pads).1.drop (k + 1) = pads.drop (k + 1) := by
  intro k
  induction k with
  | zero =>
    intro resps pads hkr hkp _ hunk
    cases resps with
    | nil => simp at hkr
    | cons r rs =>
      cases pads with
      | nil => simp at hkp
      | cons p ps =>
        cases r with
        | skip => simp [ChannelResp.isUnknownCmd, ChannelResp.isNoResp, ChannelResp.isKnownCmd] at hunk
        | resp tx rx cmd payload =>
          obtain ⟨herr, hc1, hc2, hc3⟩ := (isUnknownCmd_true_iff tx rx cmd payload).mp
            (by simpa using hunk)
          simp [specDecode, herr, hc1, hc2, hc3]
  | succ k ih =>
    intro resps pads hkr hkp habort hunk
    cases resps with
    | nil => simp at hkr
    | cons r rs =>
      cases pads with
      | nil => simp at hkp
      | cons p ps =>
        have h0 : r.aborts = false := by
          have := habort 0 (by omega)
          simpa using this
        have habort' : ∀ j, j < k → (rs.getD j ChannelResp.skip).aborts = false := by
          intro j hj
          have := habort (j + 1) (by omega)
          simpa using this
        have hunk' : (rs.getD k ChannelResp.skip).isUnknownCmd = true := by
          simpa using hunk
        have hkr' : k < rs.length := by simpa using Nat.lt_of_succ_lt_succ hkr
        have hkp' : k < ps.length := by simpa using Nat.lt_of_succ_lt_succ hkp
        have IH := ih rs ps hkr' hkp' habort' hunk'
        cases r with
        | skip =>
          simpa [specDecode] using IH
        | resp tx rx cmd payload =>
          obtain ⟨herr, hknown⟩ := (aborts_false_iff tx rx cmd payload).mp h0
          rcases hknown with hc | hc | hc <;> subst hc <;>
            simpa [specDecode, herr] using IH

/-- Every processed command channel has its extracted error code recorded in
its pad's error field, whatever the payload decode did. -/
theorem specDecode_errno_at :
    ∀ (k : Nat) (resps : List ChannelResp) (pads : List OSContPadEx) (d : OSContPadEx)
      (tx rx cmd : Nat) (payload : List Nat),
      k < resps.length → k < pads.length →
      (∀ j, j ≤ k → (resps.getD j ChannelResp.skip).aborts = false) →
      resps.getD k ChannelResp.skip = ChannelResp.resp tx rx cmd payload →
      ((specDecode resps pads).1.getD k d).errno = CHNL_ERR rx := by
  intro k
  induction k with
  | zero =>
    intro resps pads d tx rx cmd payload hkr hkp habort heq
    cases resps with
    | nil => simp at hkr
    | cons r rs =>
      cases pads with
      | nil => simp at hkp
      | cons p ps =>
        simp only [List.getD_cons_zero] at heq
        subst heq
        obtain ⟨herr, hknown⟩ := (aborts_false_iff tx rx cmd payload).mp
          (by simpa using habort 0 (by omega))
        rcases hknown with hc | hc | hc
        · subst hc
          simp only [specDecode]
          rw [if_neg herr]
          simp only [ite_true]
          split <;> simp [decodeN64Pad_errno]
        · subst hc
          simp only [specDecode]
          rw [if_neg herr,
            if_neg (show ¬(CONT_CMD_GCN_SHORT_POLL = CONT_CMD_READ_BUTTON) by decide)]
          simp only [ite_true]
          split <;> simp [decodeGCNShort_errno]
        · subst hc
          simp only [specDecode]
          rw [if_neg herr,
            if_neg (show ¬(CONT_CMD_GCN_LONG_POLL = CONT_CMD_READ_BUTTON) by decide),
            if_neg (show ¬(CONT_CMD_GCN_LONG_POLL = CONT_CMD_GCN_SHORT_POLL) by decide)]
          simp only [ite_true]
          split <;> simp [decodeGCNLong_errno]
  | succ k ih =>
    intro resps pads d tx rx cmd payload hkr hkp habort heq
    cases resps with
    | nil => simp at hkr
    | cons r rs =>
      cases pads with
      | nil => simp at hkp
      | cons p ps =>
        have h0 : r.aborts = false := by
          have := habort 0 (by omega)
          simpa using this
        have habort' : ∀ j, j ≤ k → (rs.getD j ChannelResp.skip).aborts = false := by
          intro j hj
          have := habort (j + 1) (by omega)
          simpa using this
        have heq' : rs.getD k ChannelResp.skip = ChannelResp.resp tx rx cmd payload := by
          simpa using heq
        have hkr' : k < rs.length := by simpa using Nat.lt_of_succ_lt_succ hkr
        have hkp' : k < ps.length := by simpa using Nat.lt_of_succ_lt_succ hkp
        have IH := ih rs ps d tx rx cmd payload hkr' hkp' habort' heq'
        cases r with
        | skip =>
          simpa [specDecode] using IH
        | resp tx0 rx0 cmd0 payload0 =>
          obtain ⟨herr, hknown⟩ := (aborts_false_iff tx0 rx0 cmd0 payload0).mp h0
          rcases hknown with hc | hc | hc
          · subst hc
            simp only [specDecode]
            rw [if_neg herr]
            simp only [ite_true]
            split <;> simpa using IH
          · subst hc
            simp only [specDecode]
            rw [if_neg herr,
              if_neg (show ¬(CONT_CMD_GCN_SHORT_POLL = CONT_CMD_READ_BUTTON) by decide)]
            simp only [ite_true]
            split <;> simpa using IH
          · subst hc
            simp only [specDecode]
            rw [if_neg herr,
              if_neg (show ¬(CONT_CMD_GCN_LONG_POLL = CONT_CMD_READ_BUTTON) by decide),
              if_neg (show ¬(CONT_CMD_GCN_LONG_POLL = CONT_CMD_GCN_SHORT_POLL) by decide)]
            simp only [ite_true]
            split <;> simpa using IH

/-- C2: on well-formed frames the poll-frame decoder computes exactly the
channel-ordered reference pass, and that pass aborts early exactly in two
cases — a channel whose extracted error code is no-response triggers the
forced status-repoll signal and leaves all later channels untouched, and an
unrecognized command id raises the fatal decode flag and leaves all later
channels untouched; a pass with no such channel raises neither signal, and
every command channel processed before any abort has its extracted error
code recorded in its pad's error field (so no failure path is dropped). -/
theorem claim_C2 (resps : List ChannelResp) (pads : List OSContPadEx)
    (hwf : ∀ r ∈ resps, respWf r) :
    osContGetReadDataEx (frameBytes resps) pads = specDecode resps pads
    ∧ (∀ k, k < resps.length → k < pads.length →
        (∀ j, j < k → (resps.getD j ChannelResp.skip).aborts = false) →
        (resps.getD k ChannelResp.skip).isNoResp = true →
        (osContGetReadDataEx (frameBytes resps) pads).2.1 = true
        ∧ (osContGetReadDataEx (frameBytes resps) pads).2.2 = false
        ∧ (osContGetReadDataEx (frameBytes resps) pads).1.drop (k + 1) = pads.drop (k + 1))
    ∧ (∀ k, k < resps.length → k < pads.length →
        (∀ j, j < k → (resps.getD j ChannelResp.skip).aborts = false) →
        (resps.getD k ChannelResp.skip).isUnknownCmd = true →
        (osContGetReadDataEx (frameBytes resps) pads).2.2 = true
        ∧ (osContGetReadDataEx (frameBytes resps) pads).2.1 = false
        ∧ (osContGetReadDataEx (frameBytes resps) pads).1.drop (k + 1) = pads.drop (k + 1))
    ∧ ((∀ r ∈ resps, r.aborts = false) →
        (osContGetReadDataEx (frameBytes resps) pads).2.1 = false
        ∧ (osContGetReadDataEx (frameBytes resps) pads).2.2 = false)
    ∧ (∀ k (d : OSContPadEx) tx rx cmd payload, k < resps.length → k < pads.length →
        (∀ j, j ≤ k → (resps.getD j ChannelResp.skip).aborts = false) →
        resps.getD k ChannelResp.skip = ChannelResp.resp tx rx cmd payload →
        ((osContGetReadDataEx (frameBytes resps) pads).1.getD k d).errno = CHNL_ERR rx) := by
  have href : osContGetReadDataEx (frameBytes resps) pads = specDecode resps pads :=
    decodeLoop_frame resps pads (frameBytes resps).length hwf le_rfl
  refine ⟨href, ?_, ?_, ?_, ?_⟩
  · intro k hkr hkp hab hno
    rw [href]
    exact specDecode_noResp_at k resps pads hkr hkp hab hno
  · intro k hkr hkp hab hunk
    rw [href]
    exact specDecode_unknown_at k resps pads hkr hkp hab hunk
  · intro h
    rw [href]
    exact specDecode_noAbort resps pads h
  · intro k d tx rx cmd payload hkr hkp hab heq
    rw [href]
    exact specDecode_errno_at k resps pads d tx rx cmd payload hkr hkp hab heq

/-- A concrete response frame used by the C2 witness: four standard read
responses, the second of which carries the no-response error bits. -/
def demoResps : List ChannelResp :=
  [ ChannelResp.resp 1 0x00 CONT_CMD_READ_BUTTON [0, 0, 0, 0],
    ChannelResp.resp 1 0x80 CONT_CMD_READ_BUTTON [0, 0, 0, 0],
    ChannelResp.resp 1 0x00 CONT_CMD_READ_BUTTON [0, 0, 0, 0],
    ChannelResp.resp 1 0x00 CONT_CMD_READ_BUTTON [0, 0, 0, 0] ]

/-- Four fresh pads used by the C2 witness. -/
def demoPads : List OSContPadEx := [padZero, padZero, padZero, padZero]

theorem claim_C2_witness :
    (osContGetReadDataEx (frameBytes demoResps) demoPads).2.1 = true
    ∧ (osContGetReadDataEx (frameBytes demoResps) demoPads).2.2 = false
    ∧ (osContGetReadDataEx (frameBytes demoResps) demoPads).1.drop 2 = demoPads.drop 2 :=
  (claim_C2 demoResps demoPads (by decide)).2.1 1 (by decide) (by decide)
    (by decide) (by decide)
